import Mathlib

/-!
Shallow embedding of the InnovaasFactorySim CNC simulator core.

The embedding translates the TypeScript source:
  * `cnc-data-generator.ts` — machine roster, per-machine operational-cycle
    state machine (`advanceCyclePhase`, `updateCycle`) and the sensor payload
    generators (`generateSensorReadings` and friends);
  * `umh-adapter.ts` — `convertToUMHMessage`, `validateUMHMessage`;
  * `mqtt-client.ts` — `UMHClient.publish` retry loop with exponential backoff;
  * `umh-simulation-service.ts` / `simulation-service.ts` — the per-tick
    publish pass and the metrics bookkeeping (`publishSensorData`,
    `addError`, `updateMetrics`).

Modelling conventions:
  * JS `number` values are modelled as `ℚ` (all arithmetic in the source is
    exact on the values the program produces, apart from `Math.sin`, see
    `OscSamples`); epoch-millisecond instants (`Date.now()`, `Date#getTime`)
    are modelled as `ℤ`.
  * `Math.random()` draws are threaded explicitly as named inputs, one field
    per call site and tick (each site draws at most once per tick).
  * `Math.sin(Date.now()/k)` samples are threaded as the record `OscSamples`;
    each field is a pure function of the tick instant `now`, so fixing `now`
    fixes the record.
  * A `duration` can be the JS value `Infinity` (offline machines); this is
    the `JDur` type.
  * `NaN` results of `Date#getTime` are modelled by `Option ℤ` (`none` = NaN).
-/

namespace FactorySim

/-- A JS numeric-or-string-or-boolean value as it appears in payload `value`
and metadata fields.  `infinity` models the JS value `Infinity`, which can
surface in cycle-phase metadata for offline machines. -/
inductive JSVal where
  | num (q : ℚ)
  | str (s : String)
  | jbool (b : Bool)
  | infinity
  deriving DecidableEq, Repr

/-- A JS duration in seconds: a finite number, or `Infinity`
(used by `initializeCycle` for offline machines). -/
inductive JDur where
  | fin (q : ℚ)
  | inf
  deriving DecidableEq, Repr

/-- Model of `Math.round`: round half up to an integer. -/
def jsRound (q : ℚ) : ℤ := ⌊q + 1 / 2⌋

/-- The test `elapsedSeconds >= this.currentCycle.duration`; comparison with
`Infinity` is always false for a finite left-hand side. -/
def elapsedReached (elapsed : ℚ) : JDur → Bool
  | .fin q => elapsed ≥ q
  | .inf => false

/-- The six phases of `MachineOperationCycle.phase`. -/
inductive Phase where
  | idle
  | loading
  | machining
  | unloading
  | maintenance
  | error
  deriving DecidableEq, Repr

def phaseToString : Phase → String
  | .idle => "idle"
  | .loading => "loading"
  | .machining => "machining"
  | .unloading => "unloading"
  | .maintenance => "maintenance"
  | .error => "error"

/-- Model of `MachineOperationCycle` (cnc-data-generator.ts): current phase, planned
duration in seconds, phase start instant in epoch milliseconds. -/
structure MachineOperationCycle where
  phase : Phase
  duration : JDur
  startTime : ℤ
  deriving DecidableEq, Repr

structure Capabilities where
  spindle_rpm_max : ℚ
  axes : ℕ
  tool_changer : Bool
  simultaneous_axes : ℕ
  coolant_system : Bool
  deriving DecidableEq, Repr

/-- In the source, `work_envelope` is stored as a string like "762x406x508"
and split on the letter x into numbers before use (`generateAxisPositionPayload`);
the embedding stores the split dimension list directly. -/
structure Specifications where
  spindle_power_kw : ℚ
  rapid_traverse_mm_min : ℚ
  work_envelope : List ℚ
  deriving DecidableEq, Repr

/-- Model of `CNCMachineConfig`.  `operational_status` is one of the strings
"operational", "maintenance", "offline" in the built-in roster. -/
structure CNCMachineConfig where
  machine_id : String
  display_name : String
  manufacturer : String
  model : String
  enterprise : String
  site : String
  area : String
  work_cell : String
  operational_status : String
  capabilities : Capabilities
  specifications : Specifications
  deriving DecidableEq, Repr

/-- The private mutable state of one `CNCDataGenerator` instance.
`toolWearFactors` models `Map.get(toolNumber) || 0`: a total function that is
`0` outside the initialised keys 1..20. -/
structure GenState where
  machine : CNCMachineConfig
  currentCycle : MachineOperationCycle
  lastUpdate : ℤ
  cycleStartTime : ℤ
  totalPartsProduced : ℕ
  toolWearFactors : ℤ → ℚ
  vibrationBaseline : ℚ
  temperatureBaseline : ℚ

/-- The two `Math.random()` draws available to one `advanceCyclePhase` call:
`d1` is the first draw of the taken branch (the branch selector in the
`unloading` case, the duration draw in every other case), `d2` is the second
draw (the duration draw of the `unloading` case; unused elsewhere). -/
structure AdvanceDraws where
  d1 : ℚ
  d2 : ℚ

/-- Model of `CNCDataGenerator.advanceCyclePhase` (cnc-data-generator.ts lines
364-422), with the `Math.random()` draws threaded explicitly. -/
def advanceCyclePhase (s : GenState) (now : ℤ) (dr : AdvanceDraws) : GenState :=
  match s.currentCycle.phase with
  | .idle =>
      { s with currentCycle := ⟨.loading, .fin (dr.d1 * 120 + 30), now⟩ }
  | .loading =>
      { s with currentCycle := ⟨.machining, .fin (dr.d1 * 1800 + 600), now⟩ }
  | .machining =>
      { s with currentCycle := ⟨.unloading, .fin (dr.d1 * 60 + 15), now⟩,
               totalPartsProduced := s.totalPartsProduced + 1 }
  | .unloading =>
      if dr.d1 < 0.05 then
        { s with currentCycle := ⟨.error, .fin (dr.d2 * 600 + 300), now⟩ }
      else if dr.d1 < 0.15 then
        { s with currentCycle := ⟨.maintenance, .fin (dr.d2 * 3600 + 900), now⟩ }
      else
        { s with currentCycle := ⟨.idle, .fin (dr.d2 * 300 + 60), now⟩ }
  | .maintenance =>
      { s with currentCycle := ⟨.idle, .fin (dr.d1 * 300 + 60), now⟩ }
  | .error =>
      { s with currentCycle := ⟨.idle, .fin (dr.d1 * 300 + 60), now⟩ }

/-- Model of `elapsedSeconds` as computed in `updateCycle`:
`(now.getTime() - startTime.getTime()) / 1000`. -/
def elapsedSecondsAt (c : MachineOperationCycle) (now : ℤ) : ℚ :=
  ((now - c.startTime : ℤ) : ℚ) / 1000

/-- Model of `CNCDataGenerator.updateCycle` (cnc-data-generator.ts lines 354-362). -/
def updateCycle (s : GenState) (now : ℤ) (dr : AdvanceDraws) : GenState :=
  if elapsedReached (elapsedSecondsAt s.currentCycle now) s.currentCycle.duration
  then advanceCyclePhase s now dr
  else s

/-- The planned duration is finite and lies in the closed interval. -/
def durInRange (d : JDur) (lo hi : ℚ) : Prop :=
  ∃ q, d = .fin q ∧ lo ≤ q ∧ q ≤ hi

/-- Model of `CNCDataGenerator.initializeCycle` (cnc-data-generator.ts lines 328-349);
`idleDraw` is the `Math.random()` draw of the operational branch. -/
def initializeCycle (status : String) (now : ℤ) (idleDraw : ℚ) : MachineOperationCycle :=
  if status = "maintenance" then ⟨.maintenance, .fin 3600, now⟩
  else if status = "offline" then ⟨.idle, .inf, now⟩
  else ⟨.idle, .fin (idleDraw * 300 + 60), now⟩

/-- The `CNCDataGenerator` constructor (cnc-data-generator.ts lines 312-326)
with its `Math.random()` draws threaded: `vibDraw`/`tempDraw` seed the two
per-machine baselines, `wearDraws i` seeds the initial wear of tool `i`,
`idleDraw` feeds `initializeCycle`. -/
def mkCNCDataGenerator (machine : CNCMachineConfig) (now : ℤ)
    (vibDraw tempDraw idleDraw : ℚ) (wearDraws : ℤ → ℚ) : GenState :=
  { machine := machine
    currentCycle := initializeCycle machine.operational_status now idleDraw
    lastUpdate := now
    cycleStartTime := now
    totalPartsProduced := 0
    toolWearFactors := fun i => if 1 ≤ i ∧ i ≤ 20 then wearDraws i * 0.3 else 0
    vibrationBaseline := vibDraw * 0.5 + 0.1
    temperatureBaseline := tempDraw * 10 + 45 }

/-! ## Sensor payload synthesis (cnc-data-generator.ts lines 427-920) -/

/-- An MQTT payload.  The source renders `timestamp` as the ISO-8601 string of
the tick instant; the rendering is injective, so the embedding keeps the epoch
milliseconds. -/
structure MQTTPayload where
  timestamp : ℤ
  source : String
  value : JSVal
  unit : String
  quality : String
  metadata : List (String × JSVal)
  deriving DecidableEq, Repr

structure SensorReading where
  topicPath : String
  payload : MQTTPayload
  deriving DecidableEq, Repr

/-- The per-tick samples of the `Math.sin(Date.now()/k + φ)` oscillation terms
appearing in the payload generators.  Each field is a pure function of the
tick instant `now` alone (`sin8000 i` samples `Math.sin(now/8000 + i)` for
axis index `i`), so two invocations at the same `now` see the same record. -/
structure OscSamples where
  sin10000 : ℚ
  sin15000 : ℚ
  sin8000 : ℕ → ℚ
  sin12000 : ℚ
  sin3000 : ℚ
  sin5000 : ℚ
  sin7000 : ℚ

/-- The fresh `Math.random()` draws of one `generateSensorReadings` call:
one field per call site (each payload generator draws at most once per tick). -/
structure TickDraws where
  advance : AdvanceDraws
  spindleSpeed : ℚ
  spindleLoad : ℚ
  feedrate : ℚ
  vibration : ℚ
  temperature : ℚ
  coolantPressure : ℚ
  coolantFlow : ℚ

/-- Model of `generateSpindleSpeedPayload` (lines 534-562). -/
def generateSpindleSpeedPayload (s : GenState) (osc : OscSamples) (r : ℚ)
    (now : ℤ) : MQTTPayload :=
  let rpm : ℚ :=
    match s.currentCycle.phase with
    | .machining =>
        let baseRpm := s.machine.capabilities.spindle_rpm_max * (0.3 + r * 0.6)
        baseRpm + osc.sin10000 * baseRpm * 0.1
    | .loading => s.machine.capabilities.spindle_rpm_max * 0.1
    | .unloading => s.machine.capabilities.spindle_rpm_max * 0.1
    | _ => 0
  { timestamp := now
    source := s.machine.machine_id
    value := .num (max 0 (jsRound rpm) : ℤ)
    unit := "rpm"
    quality := if rpm > 0 then "good" else "good"
    metadata := [("max_rpm", .num s.machine.capabilities.spindle_rpm_max),
                 ("phase", .str (phaseToString s.currentCycle.phase))] }

/-- Model of `generateSpindleLoadPayload` (lines 564-591). -/
def generateSpindleLoadPayload (s : GenState) (osc : OscSamples) (r : ℚ)
    (now : ℤ) : MQTTPayload :=
  let loadPercent : ℚ :=
    match s.currentCycle.phase with
    | .machining => 30 + r * 50 + osc.sin15000 * 20
    | .loading => 5 + r * 10
    | .unloading => 5 + r * 10
    | _ => 0
  { timestamp := now
    source := s.machine.machine_id
    value := .num (max 0 (min 100 ((jsRound (loadPercent * 10) : ℚ) / 10)))
    unit := "percent"
    quality := if loadPercent > 95 then "uncertain" else "good"
    metadata := [("power_rating_kw", .num s.machine.specifications.spindle_power_kw),
                 ("phase", .str (phaseToString s.currentCycle.phase))] }

def axisLabels : List String := ["x", "y", "z", "a", "b", "c"]

/-- Model of `generateAxisPositionPayload` (lines 593-639).  `axisIndex` is the index
of `axis` in the label list (the callers only pass labels from that list). -/
def generateAxisPositionPayload (s : GenState) (osc : OscSamples)
    (axis : String) (now : ℤ) : MQTTPayload :=
  let dimensions := s.machine.specifications.work_envelope
  let axisIndex : ℕ := axisLabels.indexOf axis
  let maxPosition : ℚ := dimensions.getD axisIndex 100
  let position : ℚ :=
    match s.currentCycle.phase with
    | .machining => maxPosition / 2 + osc.sin8000 axisIndex * (maxPosition * 0.3)
    | .loading => if axisIndex = 0 then maxPosition * 0.1 else maxPosition * 0.5
    | .unloading => if axisIndex = 0 then maxPosition * 0.1 else maxPosition * 0.5
    | _ => 0
  let position : ℚ := if 3 ≤ axisIndex then (position / maxPosition) * 360 - 180 else position
  let maxPosition : ℚ := if 3 ≤ axisIndex then 360 else maxPosition
  { timestamp := now
    source := s.machine.machine_id
    value := .num ((jsRound (position * 100) : ℚ) / 100)
    unit := if 3 ≤ axisIndex then "degrees" else "mm"
    quality := "good"
    metadata := [("axis", .str axis.toUpper),
                 ("max_travel", .num maxPosition),
                 ("phase", .str (phaseToString s.currentCycle.phase))] }

/-- Model of `generateFeedratePayload` (lines 641-668). -/
def generateFeedratePayload (s : GenState) (osc : OscSamples) (r : ℚ)
    (now : ℤ) : MQTTPayload :=
  let feedrate : ℚ :=
    match s.currentCycle.phase with
    | .machining => 100 + r * 1500 + osc.sin12000 * 300
    | .loading => s.machine.specifications.rapid_traverse_mm_min * 0.1
    | .unloading => s.machine.specifications.rapid_traverse_mm_min * 0.1
    | _ => 0
  { timestamp := now
    source := s.machine.machine_id
    value := .num (max 0 (jsRound feedrate) : ℤ)
    unit := "mm/min"
    quality := "good"
    metadata := [("rapid_traverse", .num s.machine.specifications.rapid_traverse_mm_min),
                 ("phase", .str (phaseToString s.currentCycle.phase))] }

/-- Model of `generateVibrationPayload` (lines 670-701). -/
def generateVibrationPayload (s : GenState) (osc : OscSamples) (r : ℚ)
    (now : ℤ) : MQTTPayload :=
  let vibration : ℚ := s.vibrationBaseline +
    (match s.currentCycle.phase with
     | .machining => r * 2.0 + osc.sin3000 * 0.5
     | .error => r * 5.0
     | _ => r * 0.2)
  { timestamp := now
    source := s.machine.machine_id
    value := .num ((jsRound (vibration * 100) : ℚ) / 100)
    unit := "mm/s"
    quality := if vibration > 5.0 then "bad" else if vibration > 3.0 then "uncertain" else "good"
    metadata := [("baseline", .num s.vibrationBaseline),
                 ("threshold_warning", .num 3.0),
                 ("threshold_alarm", .num 5.0),
                 ("phase", .str (phaseToString s.currentCycle.phase))] }

/-- Model of `generateTemperaturePayload` (lines 703-734). -/
def generateTemperaturePayload (s : GenState) (r : ℚ) (now : ℤ) : MQTTPayload :=
  let temperature : ℚ := s.temperatureBaseline +
    (match s.currentCycle.phase with
     | .machining => r * 20 + 10
     | .error => r * 30
     | _ => r * 5)
  { timestamp := now
    source := s.machine.machine_id
    value := .num ((jsRound (temperature * 10) : ℚ) / 10)
    unit := "celsius"
    quality := if temperature > 90 then "bad" else if temperature > 75 then "uncertain" else "good"
    metadata := [("baseline", .num s.temperatureBaseline),
                 ("threshold_warning", .num 75),
                 ("threshold_alarm", .num 90),
                 ("phase", .str (phaseToString s.currentCycle.phase))] }

/-- Model of `cycleProgress` as computed in `generateCurrentToolPayload`:
`(Date.now() - startTime) / (duration * 1000)`.  A finite value divided by
`Infinity` is 0 in JS; the (unreachable) division by a zero duration is 0 in
`ℚ` where JS would give `±Infinity`. -/
def cycleProgressAt (c : MachineOperationCycle) (now : ℤ) : ℚ :=
  match c.duration with
  | .fin d => ((now - c.startTime : ℤ) : ℚ) / (d * 1000)
  | .inf => 0

/-- The `toolNumber` selected by `generateCurrentToolPayload` (lines 736-743):
`Math.floor(cycleProgress * 5) + 1` during machining, tool 1 otherwise. -/
def currentToolNumber (c : MachineOperationCycle) (now : ℤ) : ℤ :=
  if c.phase = .machining then ⌊cycleProgressAt c now * 5⌋ + 1 else 1

/-- Model of `generateCurrentToolPayload` (lines 736-759). -/
def generateCurrentToolPayload (s : GenState) (now : ℤ) : MQTTPayload :=
  let toolNumber := currentToolNumber s.currentCycle now
  let toolWear := s.toolWearFactors toolNumber
  { timestamp := now
    source := s.machine.machine_id
    value := .num (toolNumber : ℚ)
    unit := "tool_number"
    quality := if toolWear > 0.8 then "uncertain" else "good"
    metadata := [("tool_wear_percent", .num (jsRound (toolWear * 100) : ℤ)),
                 ("tool_life_remaining", .num (jsRound ((1 - toolWear) * 100) : ℤ)),
                 ("phase", .str (phaseToString s.currentCycle.phase))] }

/-- Model of `generateCoolantPressurePayload` (lines 761-790). -/
def generateCoolantPressurePayload (s : GenState) (osc : OscSamples) (r : ℚ)
    (now : ℤ) : MQTTPayload :=
  let pressure : ℚ :=
    match s.currentCycle.phase with
    | .machining => 3.5 + r * 1.0 + osc.sin5000 * 0.2
    | .loading => 2.0 + r * 0.5
    | .unloading => 2.0 + r * 0.5
    | _ => 0.5 + r * 0.3
  { timestamp := now
    source := s.machine.machine_id
    value := .num ((jsRound (pressure * 10) : ℚ) / 10)
    unit := "bar"
    quality := if pressure < 2.0 ∧ s.currentCycle.phase = .machining then "bad" else "good"
    metadata := [("min_operating_pressure", .num 2.0),
                 ("nominal_pressure", .num 4.0),
                 ("phase", .str (phaseToString s.currentCycle.phase))] }

/-- Model of `generateCoolantFlowPayload` (lines 792-818). -/
def generateCoolantFlowPayload (s : GenState) (osc : OscSamples) (r : ℚ)
    (now : ℤ) : MQTTPayload :=
  let flowRate : ℚ :=
    match s.currentCycle.phase with
    | .machining => 15 + r * 10 + osc.sin7000 * 3
    | .loading => 5 + r * 3
    | .unloading => 5 + r * 3
    | _ => 1 + r * 2
  { timestamp := now
    source := s.machine.machine_id
    value := .num ((jsRound (flowRate * 10) : ℚ) / 10)
    unit := "L/min"
    quality := "good"
    metadata := [("nominal_flow", .num 20),
                 ("phase", .str (phaseToString s.currentCycle.phase))] }

/-- Model of `generateOperationalStatusPayload` (lines 820-858). -/
def generateOperationalStatusPayload (s : GenState) (now : ℤ) : MQTTPayload :=
  let detailedStatus : String :=
    if s.machine.operational_status = "operational" then
      match s.currentCycle.phase with
      | .machining => "running"
      | .loading => "setup"
      | .unloading => "setup"
      | .idle => "idle"
      | .error => "error"
      | .maintenance => "maintenance"
    else s.machine.operational_status
  { timestamp := now
    source := s.machine.machine_id
    value := .str detailedStatus
    unit := "status"
    quality := "good"
    metadata := [("base_status", .str s.machine.operational_status),
                 ("cycle_phase", .str (phaseToString s.currentCycle.phase)),
                 ("uptime_hours", .num (jsRound (((now - s.cycleStartTime : ℤ) : ℚ) / 3600000) : ℤ))] }

/-- Model of `generateCyclePhasePayload` (lines 860-877).  `Infinity` durations
(offline machines) propagate into the metadata as in JS:
`Infinity - x = Infinity`, `Math.round(Infinity) = Infinity`,
`Math.max(0, Infinity) = Infinity`, `x / Infinity = 0`. -/
def generateCyclePhasePayload (s : GenState) (now : ℤ) : MQTTPayload :=
  let elapsedSeconds : ℤ := jsRound (((now - s.currentCycle.startTime : ℤ) : ℚ) / 1000)
  { timestamp := now
    source := s.machine.machine_id
    value := .str (phaseToString s.currentCycle.phase)
    unit := "phase"
    quality := "good"
    metadata := [("elapsed_seconds", .num (elapsedSeconds : ℚ)),
                 ("remaining_seconds",
                   match s.currentCycle.duration with
                   | .fin q => .num (max 0 (jsRound (q - elapsedSeconds)) : ℤ)
                   | .inf => .infinity),
                 ("total_duration",
                   match s.currentCycle.duration with
                   | .fin q => .num (jsRound q : ℤ)
                   | .inf => .infinity),
                 ("progress_percent",
                   match s.currentCycle.duration with
                   | .fin q => .num (jsRound ((elapsedSeconds / q) * 100) : ℤ)
                   | .inf => .num 0)] }

/-- Model of `generatePartsCountPayload` (lines 879-891).  The `shift_start` ISO string
is rendered from the epoch milliseconds; a zero uptime makes
`parts_per_hour` a division by zero, which is 0 in `ℚ` (JS: NaN/Infinity). -/
def generatePartsCountPayload (s : GenState) (now : ℤ) : MQTTPayload :=
  { timestamp := now
    source := s.machine.machine_id
    value := .num (s.totalPartsProduced : ℚ)
    unit := "parts"
    quality := "good"
    metadata := [("shift_start", .str (toString s.cycleStartTime)),
                 ("parts_per_hour",
                   .num ((jsRound ((s.totalPartsProduced : ℚ) /
                     (((now - s.cycleStartTime : ℤ) : ℚ) / 3600000) * 10) : ℚ) / 10))] }

/-- Model of `generateEfficiencyPayload` (lines 893-920). -/
def generateEfficiencyPayload (s : GenState) (now : ℤ) : MQTTPayload :=
  let totalRuntime : ℚ := ((now - s.cycleStartTime : ℤ) : ℚ) / 1000
  let machiningTime : ℚ :=
    (if s.currentCycle.phase = .machining
     then ((now - s.currentCycle.startTime : ℤ) : ℚ) / 1000 else 0) +
    (s.totalPartsProduced : ℚ) * 1200
  let efficiency : ℚ := min 100 ((machiningTime / totalRuntime) * 100)
  { timestamp := now
    source := s.machine.machine_id
    value := .num ((jsRound (efficiency * 10) : ℚ) / 10)
    unit := "percent"
    quality := "good"
    metadata := [("machining_time_seconds", .num (jsRound machiningTime : ℤ)),
                 ("total_runtime_seconds", .num (jsRound totalRuntime : ℤ)),
                 ("target_efficiency", .num 75),
                 ("current_phase", .str (phaseToString s.currentCycle.phase))] }

/-- Model of `CNCDataGenerator.generateSensorReadings` (lines 427-532): advance the
cycle, then synthesize the per-sensor readings of this tick and record
`lastUpdate`.  `outputFormat` is the `OUTPUT_FORMAT` environment value. -/
def generateSensorReadings (s : GenState) (now : ℤ) (outputFormat : String)
    (osc : OscSamples) (dr : TickDraws) : List SensorReading × GenState :=
  let s1 := updateCycle s now dr.advance
  let isUMH := outputFormat = "umh" ∨ outputFormat = "umh-core"
  let m := s1.machine
  let baseTopicPath :=
    if isUMH then
      "umh/v1/" ++ m.enterprise ++ "/" ++ m.site ++ "/" ++ m.area ++ "/" ++
        m.work_cell ++ "/" ++ m.machine_id ++ "/_raw"
    else
      m.enterprise ++ "/" ++ m.site ++ "/" ++ m.area ++ "/" ++ m.work_cell ++
        "/" ++ m.machine_id
  let sensorPathStart := if isUMH then "" else "/info/sensors"
  let statusPathStart := if isUMH then "" else "/info/status"
  let prodPathStart := if isUMH then "" else "/info/production"
  let readings : List SensorReading :=
    [⟨baseTopicPath ++ sensorPathStart ++ "/spindle-speed",
      generateSpindleSpeedPayload s1 osc dr.spindleSpeed now⟩,
     ⟨baseTopicPath ++ sensorPathStart ++ "/spindle-load",
      generateSpindleLoadPayload s1 osc dr.spindleLoad now⟩] ++
    (axisLabels.take m.capabilities.axes).map (fun axis =>
      ⟨baseTopicPath ++ sensorPathStart ++ "/position-" ++ axis,
       generateAxisPositionPayload s1 osc axis now⟩) ++
    [⟨baseTopicPath ++ sensorPathStart ++ "/feedrate",
      generateFeedratePayload s1 osc dr.feedrate now⟩,
     ⟨baseTopicPath ++ sensorPathStart ++ "/vibration",
      generateVibrationPayload s1 osc dr.vibration now⟩,
     ⟨baseTopicPath ++ sensorPathStart ++ "/temperature",
      generateTemperaturePayload s1 dr.temperature now⟩,
     ⟨baseTopicPath ++ sensorPathStart ++ "/current-tool",
      generateCurrentToolPayload s1 now⟩] ++
    (if m.capabilities.coolant_system then
      [⟨baseTopicPath ++ sensorPathStart ++ "/coolant-pressure",
        generateCoolantPressurePayload s1 osc dr.coolantPressure now⟩,
       ⟨baseTopicPath ++ sensorPathStart ++ "/coolant-flow",
        generateCoolantFlowPayload s1 osc dr.coolantFlow now⟩]
     else []) ++
    [⟨baseTopicPath ++ statusPathStart ++ "/operational",
      generateOperationalStatusPayload s1 now⟩,
     ⟨baseTopicPath ++ statusPathStart ++ "/cycle-phase",
      generateCyclePhasePayload s1 now⟩,
     ⟨baseTopicPath ++ prodPathStart ++ "/parts-count",
      generatePartsCountPayload s1 now⟩,
     ⟨baseTopicPath ++ prodPathStart ++ "/efficiency",
      generateEfficiencyPayload s1 now⟩]
  (readings, { s1 with lastUpdate := now })

/-! ## Built-in machine roster (cnc-data-generator.ts lines 56-296) -/

/-- Model of `generateMachineConfigs`, parameterised by the environment-derived
enterprise and site names (defaults "demo-factory" / "plant1"). -/
def generateMachineConfigs (enterprise site : String) : List CNCMachineConfig :=
  [{ machine_id := "cnc-001", display_name := "Haas VF-2 Mill #1",
     manufacturer := "Haas", model := "VF-2", enterprise := enterprise,
     site := site, area := "machining", work_cell := "cell-01",
     operational_status := "operational",
     capabilities := ⟨8100, 3, true, 3, true⟩,
     specifications := ⟨15, 25400, [762, 406, 508]⟩ },
   { machine_id := "cnc-002", display_name := "Haas VF-2 Mill #2",
     manufacturer := "Haas", model := "VF-2", enterprise := enterprise,
     site := site, area := "machining", work_cell := "cell-01",
     operational_status := "operational",
     capabilities := ⟨8100, 3, true, 3, true⟩,
     specifications := ⟨15, 25400, [762, 406, 508]⟩ },
   { machine_id := "cnc-003", display_name := "DMG Mori NLX2500 Lathe #1",
     manufacturer := "DMG Mori", model := "NLX2500", enterprise := enterprise,
     site := site, area := "turning", work_cell := "cell-02",
     operational_status := "operational",
     capabilities := ⟨4500, 2, true, 2, true⟩,
     specifications := ⟨22, 30000, [400, 800, 350]⟩ },
   { machine_id := "cnc-004", display_name := "DMG Mori NLX2500 Lathe #2",
     manufacturer := "DMG Mori", model := "NLX2500", enterprise := enterprise,
     site := site, area := "turning", work_cell := "cell-02",
     operational_status := "operational",
     capabilities := ⟨4500, 2, true, 2, true⟩,
     specifications := ⟨22, 30000, [400, 800, 350]⟩ },
   { machine_id := "cnc-005", display_name := "Mazak Integrex i-300 Multi-Axis #1",
     manufacturer := "Mazak", model := "Integrex i-300", enterprise := enterprise,
     site := site, area := "multi-axis", work_cell := "cell-03",
     operational_status := "operational",
     capabilities := ⟨6000, 5, true, 5, true⟩,
     specifications := ⟨30, 36000, [500, 850, 450]⟩ },
   { machine_id := "cnc-006", display_name := "Mazak Integrex i-300 Multi-Axis #2",
     manufacturer := "Mazak", model := "Integrex i-300", enterprise := enterprise,
     site := site, area := "multi-axis", work_cell := "cell-03",
     operational_status := "maintenance",
     capabilities := ⟨6000, 5, true, 5, true⟩,
     specifications := ⟨30, 36000, [500, 850, 450]⟩ },
   { machine_id := "cnc-007", display_name := "Okuma Genos L250-E Lathe",
     manufacturer := "Okuma", model := "Genos L250-E", enterprise := enterprise,
     site := site, area := "turning", work_cell := "cell-04",
     operational_status := "operational",
     capabilities := ⟨5000, 2, true, 2, true⟩,
     specifications := ⟨18.5, 24000, [350, 780, 300]⟩ },
   { machine_id := "cnc-008", display_name := "Doosan DNM 500 Mill",
     manufacturer := "Doosan", model := "DNM 500", enterprise := enterprise,
     site := site, area := "machining", work_cell := "cell-05",
     operational_status := "operational",
     capabilities := ⟨12000, 3, true, 3, true⟩,
     specifications := ⟨11, 36000, [500, 400, 330]⟩ },
   { machine_id := "cnc-009", display_name := "Fanuc Robodrill α-T14iE Mill",
     manufacturer := "Fanuc", model := "Robodrill α-T14iE", enterprise := enterprise,
     site := site, area := "precision", work_cell := "cell-06",
     operational_status := "operational",
     capabilities := ⟨24000, 3, true, 3, true⟩,
     specifications := ⟨7.5, 60000, [350, 250, 220]⟩ },
   { machine_id := "cnc-010", display_name := "Mori Seiki NV5000 DCG Mill",
     manufacturer := "Mori Seiki", model := "NV5000 DCG", enterprise := enterprise,
     site := site, area := "precision", work_cell := "cell-06",
     operational_status := "offline",
     capabilities := ⟨15000, 5, true, 5, true⟩,
     specifications := ⟨22, 50000, [560, 510, 460]⟩ }]

/-- Model of `CNC_MACHINES` with the environment defaults. -/
def CNC_MACHINES : List CNCMachineConfig :=
  generateMachineConfigs "demo-factory" "plant1"

/-- Model of `CNCDataGeneratorFactory.generateOperationalReadings` iterates the
generators (roster order) and keeps machines whose configuration exists and
is not "offline"; this is the resulting machine selection. -/
def operationalMachines : List CNCMachineConfig :=
  CNC_MACHINES.filter (fun m => ¬ (m.operational_status = "offline"))

/-! ## UMH adapter (umh-adapter.ts, types/umh-types.ts) -/

/-- Model of `UMHPayload`.  `value = none` models a missing (`undefined`/`null`) JS
value; `timestamp_ms = none` models NaN, the `Date#getTime` result on an
unparseable timestamp string (a `getTime` result is never `±Infinity`). -/
structure UMHPayload where
  value : Option JSVal
  timestamp_ms : Option ℤ
  deriving DecidableEq, Repr

structure UMHMetadata where
  location_path : String
  data_contract : String
  tag_name : String
  unit : String
  quality : String
  source : String
  original_metadata : List (String × JSVal)
  deriving DecidableEq, Repr

/-- Model of `UMHMessage`.  `payload`/`metadata` are `Option` so the runtime
`!message.payload` / `!message.metadata` checks of `validateUMHMessage` are
representable. -/
structure UMHMessage where
  payload : Option UMHPayload
  metadata : Option UMHMetadata
  topic : String
  deriving DecidableEq, Repr

def buildLocationPath (enterprise site area work_cell machine : String) : String :=
  enterprise ++ "." ++ site ++ "." ++ area ++ "." ++ work_cell ++ "." ++ machine

def buildUMHTopic (enterprise site area work_cell machine data_contract tag_name : String) : String :=
  "umh.v1." ++ enterprise ++ "." ++ site ++ "." ++ area ++ "." ++ work_cell ++
    "." ++ machine ++ "." ++ data_contract ++ "." ++ tag_name

structure SensorReadingWithMachine where
  topicPath : String
  payload : MQTTPayload
  machine : CNCMachineConfig
  sensorType : String
  deriving DecidableEq, Repr

/-- Model of `UMHAdapter.extractSensorType`: the last slash-separated segment. -/
def extractSensorType (topicPath : String) : String :=
  (topicPath.splitOn "/").getLastD ""

/-- Model of `UMHAdapter.convertToUMHMessage` (umh-adapter.ts lines 22-75).  The
embedded `MQTTPayload.timestamp` is the instant itself, and
`new Date(iso).getTime()` recovers exactly that instant, so `timestamp_ms`
is `some` of it. -/
def convertToUMHMessage (r : SensorReadingWithMachine) : UMHMessage :=
  let tag_name := r.sensorType.replace "-" "_"
  { payload := some { value := some r.payload.value,
                      timestamp_ms := some r.payload.timestamp }
    metadata := some { location_path := buildLocationPath r.machine.enterprise
                         r.machine.site r.machine.area r.machine.work_cell
                         r.machine.machine_id
                       data_contract := "_raw"
                       tag_name := tag_name
                       unit := r.payload.unit
                       quality := r.payload.quality
                       source := r.payload.source
                       original_metadata := r.payload.metadata }
    topic := buildUMHTopic r.machine.enterprise r.machine.site r.machine.area
      r.machine.work_cell r.machine.machine_id "_raw" tag_name }

structure ValidationResult where
  valid : Bool
  errors : List String
  deriving DecidableEq, Repr

/-- JS truthiness of the `timestamp_ms` field: NaN (`none`) and 0 are falsy;
every other number is truthy (and its `typeof` is "number"). -/
def truthyTimestamp : Option ℤ → Bool
  | none => false
  | some n => n ≠ 0

/-- Model of `UMHAdapter.validateUMHMessage` (umh-adapter.ts lines 96-137).  The
startsWith check of the source on the umh.v1. topic namespace is expressed
on the character data (`List.isPrefixOf`), which has the same meaning on
every string. -/
def validateUMHMessage (m : UMHMessage) : ValidationResult :=
  let payloadErrors :=
    match m.payload with
    | none => ["Missing payload"]
    | some p =>
        (if p.value = none then ["Payload missing value"] else []) ++
        (if ¬ truthyTimestamp p.timestamp_ms
         then ["Payload missing or invalid timestamp_ms"] else [])
  let metadataErrors :=
    match m.metadata with
    | none => ["Missing metadata"]
    | some md =>
        (if md.location_path = "" then ["Metadata missing location_path"] else []) ++
        (if md.data_contract = "" then ["Metadata missing data_contract"] else []) ++
        (if md.tag_name = "" then ["Metadata missing tag_name"] else [])
  let topicErrors :=
    if m.topic = "" then ["Missing topic"]
    else if ¬ ("umh.v1.".data.isPrefixOf m.topic.data)
    then ["Topic does not start with umh.v1."]
    else []
  let errors := payloadErrors ++ metadataErrors ++ topicErrors
  { valid := errors.isEmpty, errors := errors }

/-- The `umhMessages` accumulation of
`UMHSimulationManager.publishSensorData` (umh-simulation-service.ts lines
340-371): convert each reading, keep it only when validation passes (invalid
messages are logged and dropped before any publishing). -/
def collectUMHMessages (rs : List SensorReadingWithMachine) : List UMHMessage :=
  rs.foldr (fun r acc =>
    let umhMessage := convertToUMHMessage r
    if (validateUMHMessage umhMessage).valid then umhMessage :: acc else acc) []

/-! ## Publisher client retry loop (mqtt-client.ts) -/

/-- The backoff computed after a failed attempt:
`Math.min(1000 * Math.pow(2, attempt - 1), 5000)` milliseconds. -/
def backoffDelay (attempt : ℕ) : ℕ := min (1000 * 2 ^ (attempt - 1)) 5000

/-- Resolution of the retry ceiling in the `UMHClient` constructor:
`options.retries || 3` (JS `||`, so an explicit 0 also falls back to 3). -/
def resolveRetries (retries : Option ℕ) : ℕ :=
  match retries with
  | some n => if n = 0 then 3 else n
  | none => 3

/-- Result of one `UMHClient.publish` call: either the attempt number that
succeeded, or failure after exhausting all attempts.  `delays` lists the
backoff waits performed between consecutive attempts, in order;
`lastError` is the error of the last failed attempt (`none` only when the
retry ceiling is 0 and the loop never ran). -/
inductive PublishOutcome (ε : Type) where
  | success (attempt : ℕ) (delays : List ℕ)
  | failure (delays : List ℕ) (lastError : Option ε)
  deriving DecidableEq, Repr

/-- The body of the `for (let attempt = 1; attempt <= this.retries; attempt++)`
loop of `UMHClient.publish` (mqtt-client.ts lines 70-111).  `httpAttempt a`
is the outcome of the HTTP POST of attempt `a` (`none` = success, `some e` =
the caught error); `remaining` counts the attempts still allowed, including
the current one. -/
def publishFrom (httpAttempt : ℕ → Option ε) :
    ℕ → ℕ → List ℕ → Option ε → PublishOutcome ε
  | _, 0, delays, lastError => .failure delays lastError
  | attempt, remaining + 1, delays, _ =>
      match httpAttempt attempt with
      | none => .success attempt delays
      | some e =>
          if remaining = 0 then .failure delays (some e)
          else publishFrom httpAttempt (attempt + 1) remaining
                 (delays ++ [backoffDelay attempt]) (some e)

/-- Model of `UMHClient.publish`: up to `retries` attempts starting at attempt 1. -/
def publish (retries : ℕ) (httpAttempt : ℕ → Option ε) : PublishOutcome ε :=
  publishFrom httpAttempt 1 retries [] none

/-! ## Scheduler tick and metrics (umh-simulation-service.ts,
simulation-service.ts) -/

/-- Model of `SimulationMetrics` of the UMH manager. -/
structure UMHMetrics where
  totalMessagesPublished : ℕ
  messagesPerSecond : ℚ
  activeMachines : ℕ
  uptime : ℤ
  errors : List String
  batchesSent : ℕ
  deriving DecidableEq, Repr

/-- Model of `UMHSimulationManager.addError`: push, then keep only the last 10. -/
def addError (m : UMHMetrics) (e : String) : UMHMetrics :=
  let es := m.errors ++ [e]
  { m with errors := if 10 < es.length then es.drop (es.length - 10) else es }

/-- Model of `UMHSimulationManager.updateMetrics`. -/
def updateMetrics (now startTime : ℤ) (m : UMHMetrics) : UMHMetrics :=
  let uptimeSeconds : ℚ := ((now - startTime : ℤ) : ℚ) / 1000
  { m with uptime := jsRound uptimeSeconds,
           messagesPerSecond :=
             if 0 < uptimeSeconds
             then ((jsRound (((m.totalMessagesPublished : ℚ) / uptimeSeconds) * 100) : ℚ) / 100)
             else 0 }

/-- The individual-send loop of `UMHSimulationManager.publishSensorData`
(umh-simulation-service.ts lines 386-391): await each publish in order,
incrementing the published counter on success; a publish that throws (after
its retries are exhausted) aborts the loop and surfaces the error.  Each
list entry is the outcome of the `umhClient.publish` call of one message
(`none` = delivered, `some e` = threw with message `e`). -/
def runIndividualSends : List (Option String) → UMHMetrics → UMHMetrics × Option String
  | [], m => (m, none)
  | none :: rest, m =>
      runIndividualSends rest
        { m with totalMessagesPublished := m.totalMessagesPublished + 1 }
  | some e :: _, m => (m, some e)

/-- One tick of `UMHSimulationManager.publishSensorData` on the
individual-send path (`batchSize ≤ 1` or few messages), after message
collection: deliver in order inside the tick-level `try`; on success update
`activeMachines` and the derived metrics, on a thrown delivery error the
`catch` records it via `addError` and the metric update is skipped.
`active` is `allReadings.size`. -/
def publishSensorDataTick (outcomes : List (Option String)) (active : ℕ)
    (now startTime : ℤ) (m : UMHMetrics) : UMHMetrics :=
  match runIndividualSends outcomes m with
  | (m1, none) => updateMetrics now startTime { m1 with activeMachines := active }
  | (m1, some e) => addError m1 ("UMH publishing error: " ++ e)

/-- Model of `UMHSimulationManager.start` error propagation: a connection failure is
cleaned up and re-thrown (aborting the start); otherwise the manager starts.
`connectResult` is the outcome of `umhClient.connect()`. -/
def startSimulation (connectResult : Option String) : Except String Unit :=
  match connectResult with
  | none => .ok ()
  | some e => .error e

/-- Model of `SimulationMetrics` of the MQTT `SimulationManager` (no batches). -/
structure SimMetrics where
  totalMessagesPublished : ℕ
  messagesPerSecond : ℚ
  activeMachines : ℕ
  uptime : ℤ
  errors : List String
  deriving DecidableEq, Repr

/-- Model of `SimulationManager.addError`: push, keep last 10. -/
def addErrorSim (m : SimMetrics) (e : String) : SimMetrics :=
  let es := m.errors ++ [e]
  { m with errors := if 10 < es.length then es.drop (es.length - 10) else es }

/-- One tick of `SimulationManager.publishSensorData` (cnc-data-generator
companion service, lines 1196-1265): every reading of every non-offline
machine is handed to the fire-and-forget MQTT publish (callback errors are
recorded, they never throw), then `activeMachines` is set to the number of
machines that generated readings — the operational (non-offline) roster.
`outcomes` pairs the topic of each published message with its callback error,
if any. -/
def publishSensorDataSim (outcomes : List (String × Option String))
    (m : SimMetrics) : SimMetrics :=
  let afterPublish := outcomes.foldl (fun acc o =>
    match o.2 with
    | none => { acc with totalMessagesPublished := acc.totalMessagesPublished + 1 }
    | some e => addErrorSim acc ("Publish error for " ++ o.1 ++ ": " ++ e)) m
  { afterPublish with activeMachines := operationalMachines.length }

/-! ## Spec-side refinement definition and concrete example values -/

/-- Modelled from the spec (§4.1 tool selection), for comparison with the
source-derived `currentToolNumber`: tool index =
`floor(phase_progress_fraction × 5) + 1` with
`phase_progress_fraction = elapsed / planned_duration` clamped to
[0, 0.999]. -/
def specClampedToolNumber (c : MachineOperationCycle) (now : ℤ) : ℤ :=
  match c.duration with
  | .fin d =>
      let fraction := (((now - c.startTime : ℤ) : ℚ) / 1000) / d
      ⌊max 0 (min fraction (999 / 1000)) * 5⌋ + 1
  | .inf => 1

/-- The cnc-001 roster entry, used as a concrete machine in witnesses. -/
def demoMachine : CNCMachineConfig :=
  { machine_id := "cnc-001", display_name := "Haas VF-2 Mill #1",
    manufacturer := "Haas", model := "VF-2", enterprise := "demo-factory",
    site := "plant1", area := "machining", work_cell := "cell-01",
    operational_status := "operational",
    capabilities := ⟨8100, 3, true, 3, true⟩,
    specifications := ⟨15, 25400, [762, 406, 508]⟩ }

/-- A concrete generator state in the given cycle phase, used in witnesses. -/
def demoState (phase : Phase) (dur : JDur) : GenState :=
  { machine := demoMachine
    currentCycle := ⟨phase, dur, 0⟩
    lastUpdate := 0
    cycleStartTime := 0
    totalPartsProduced := 0
    toolWearFactors := fun _ => 1 / 10
    vibrationBaseline := 1 / 2
    temperatureBaseline := 50 }

/-- All-zero oscillation samples (a valid sample record, e.g. at `now = 0`). -/
def osc0 : OscSamples := ⟨0, 0, fun _ => 0, 0, 0, 0, 0⟩

/-- An all-zero per-tick draw record. -/
def draws0 : TickDraws := ⟨⟨0, 0⟩, 0, 0, 0, 0, 0, 0, 0⟩

/-- A per-tick draw record that differs from `draws0` only in the
temperature draw. -/
def drawsTemp : TickDraws := ⟨⟨0, 0⟩, 0, 0, 0, 0, 1/2, 0, 0⟩

/-- Fallback element for positional access into reading lists. -/
def fallbackReading : SensorReading := ⟨"", ⟨0, "", .num 0, "", "", []⟩⟩

/-- The engine state after one tick of a machining machine at t = 300 s. -/
def tickedOnceState : GenState :=
  (generateSensorReadings (demoState .machining (.fin 1200)) 300000 "uns" osc0 draws0).2

/-- The engine state after a further tick at t = 600 s. -/
def tickedTwiceState : GenState :=
  (generateSensorReadings tickedOnceState 600000 "uns" osc0 draws0).2

/-- A UMH message whose payload value is missing. -/
def missingValueUMHMessage : UMHMessage :=
  ⟨some ⟨none, some 5⟩,
   some ⟨"demo-factory.plant1.machining.cell-01.cnc-001", "_raw", "spindle_speed",
     "rpm", "good", "cnc-001", []⟩,
   "umh.v1.demo-factory.plant1.machining.cell-01.cnc-001._raw.spindle_speed"⟩

/-- A UMH message that passes validation. -/
def validUMHMessage : UMHMessage :=
  ⟨some ⟨some (.num 1), some 5⟩,
   some ⟨"demo-factory.plant1.machining.cell-01.cnc-001", "_raw", "spindle_speed",
     "rpm", "good", "cnc-001", []⟩,
   "umh.v1.demo-factory.plant1.machining.cell-01.cnc-001._raw.spindle_speed"⟩

/-- A UMH message that is valid except for an epoch-zero timestamp. -/
def zeroTimestampUMHMessage : UMHMessage :=
  ⟨some ⟨some (.num 1), some 0⟩,
   some ⟨"demo-factory.plant1.machining.cell-01.cnc-001", "_raw", "spindle_speed",
     "rpm", "good", "cnc-001", []⟩,
   "umh.v1.demo-factory.plant1.machining.cell-01.cnc-001._raw.spindle_speed"⟩

/-- A per-attempt HTTP outcome: attempts 1 and 2 fail, attempt 3 succeeds. -/
def failTwiceOutcome : ℕ → Option String :=
  fun a => if a < 3 then some "connect ECONNREFUSED" else none

/-- Fresh metrics as initialised by the `UMHSimulationManager` constructor. -/
def freshUMHMetrics : UMHMetrics := ⟨0, 0, 0, 0, [], 0⟩

/-- Fresh metrics as initialised by the `SimulationManager` constructor. -/
def freshSimMetrics : SimMetrics := ⟨0, 0, 0, 0, []⟩

/-! ## Theorems -/

/-- C1: every transition of the machine cycle state machine samples its new
planned duration within the range the spec declares for that transition —
idle→loading in [30,150] s, loading→machining in [600,2400] s,
machining→unloading in [15,75] s, unloading→idle in [60,360] s,
unloading→maintenance in [900,4500] s, unloading→error in [300,900] s, and
maintenance→idle and error→idle in [60,360] s — for every value of the
underlying random draws in [0,1). -/
theorem advanceCyclePhase_duration_in_declared_range
    (s : GenState) (now : ℤ) (dr : AdvanceDraws)
    (h10 : 0 ≤ dr.d1) (h11 : dr.d1 < 1) (h20 : 0 ≤ dr.d2) (h21 : dr.d2 < 1) :
    (s.currentCycle.phase = .idle →
      (advanceCyclePhase s now dr).currentCycle.phase = .loading ∧
      durInRange (advanceCyclePhase s now dr).currentCycle.duration 30 150) ∧
    (s.currentCycle.phase = .loading →
      (advanceCyclePhase s now dr).currentCycle.phase = .machining ∧
      durInRange (advanceCyclePhase s now dr).currentCycle.duration 600 2400) ∧
    (s.currentCycle.phase = .machining →
      (advanceCyclePhase s now dr).currentCycle.phase = .unloading ∧
      durInRange (advanceCyclePhase s now dr).currentCycle.duration 15 75) ∧
    (s.currentCycle.phase = .unloading →
      ((advanceCyclePhase s now dr).currentCycle.phase = .idle ∧
        durInRange (advanceCyclePhase s now dr).currentCycle.duration 60 360) ∨
      ((advanceCyclePhase s now dr).currentCycle.phase = .maintenance ∧
        durInRange (advanceCyclePhase s now dr).currentCycle.duration 900 4500) ∨
      ((advanceCyclePhase s now dr).currentCycle.phase = .error ∧
        durInRange (advanceCyclePhase s now dr).currentCycle.duration 300 900)) ∧
    (s.currentCycle.phase = .maintenance →
      (advanceCyclePhase s now dr).currentCycle.phase = .idle ∧
      durInRange (advanceCyclePhase s now dr).currentCycle.duration 60 360) ∧
    (s.currentCycle.phase = .error →
      (advanceCyclePhase s now dr).currentCycle.phase = .idle ∧
      durInRange (advanceCyclePhase s now dr).currentCycle.duration 60 360) := by
  refine ⟨fun hp => ?_, fun hp => ?_, fun hp => ?_, fun hp => ?_, fun hp => ?_,
    fun hp => ?_⟩ <;> simp only [advanceCyclePhase, hp, durInRange]
  · exact ⟨trivial, dr.d1 * 120 + 30, rfl, by nlinarith, by nlinarith⟩
  · exact ⟨trivial, dr.d1 * 1800 + 600, rfl, by nlinarith, by nlinarith⟩
  · exact ⟨trivial, dr.d1 * 60 + 15, rfl, by nlinarith, by nlinarith⟩
  · split_ifs with h1 h2
    · exact Or.inr (Or.inr ⟨rfl, dr.d2 * 600 + 300, rfl, by nlinarith, by nlinarith⟩)
    · exact Or.inr (Or.inl ⟨rfl, dr.d2 * 3600 + 900, rfl, by nlinarith, by nlinarith⟩)
    · exact Or.inl ⟨rfl, dr.d2 * 300 + 60, rfl, by nlinarith, by nlinarith⟩
  · exact ⟨trivial, dr.d1 * 300 + 60, rfl, by nlinarith, by nlinarith⟩
  · exact ⟨trivial, dr.d1 * 300 + 60, rfl, by nlinarith, by nlinarith⟩

/-- Witness for C1: the idle→loading transition of a concrete state with both
draws 1/2 lands in [30,150]. -/
theorem advanceCyclePhase_duration_in_declared_range_witness :
    (demoState .idle (.fin 100)).currentCycle.phase = .idle ∧
    ((advanceCyclePhase (demoState .idle (.fin 100)) 0 ⟨1/2, 1/2⟩).currentCycle.phase = .loading ∧
      durInRange (advanceCyclePhase (demoState .idle (.fin 100)) 0 ⟨1/2, 1/2⟩).currentCycle.duration 30 150) :=
  ⟨rfl, (advanceCyclePhase_duration_in_declared_range (demoState .idle (.fin 100)) 0
    ⟨1/2, 1/2⟩ (by norm_num) (by norm_num) (by norm_num) (by norm_num)).1 rfl⟩

/-- Helper: `advanceCyclePhase` always stamps the new phase with
`startTime = now` and a finite, strictly positive planned duration
(given nonnegative draws). -/
theorem advanceCyclePhase_startTime_posDuration
    (s : GenState) (now : ℤ) (dr : AdvanceDraws)
    (h10 : 0 ≤ dr.d1) (h20 : 0 ≤ dr.d2) :
    (advanceCyclePhase s now dr).currentCycle.startTime = now ∧
    ∃ q, (advanceCyclePhase s now dr).currentCycle.duration = .fin q ∧ 0 < q := by
  cases hp : s.currentCycle.phase <;> simp only [advanceCyclePhase, hp]
  · exact ⟨trivial, dr.d1 * 120 + 30, rfl, by nlinarith⟩
  · exact ⟨trivial, dr.d1 * 1800 + 600, rfl, by nlinarith⟩
  · exact ⟨trivial, dr.d1 * 60 + 15, rfl, by nlinarith⟩
  · split_ifs with h1 h2
    · exact ⟨rfl, dr.d2 * 600 + 300, rfl, by nlinarith⟩
    · exact ⟨rfl, dr.d2 * 3600 + 900, rfl, by nlinarith⟩
    · exact ⟨rfl, dr.d2 * 300 + 60, rfl, by nlinarith⟩
  · exact ⟨trivial, dr.d1 * 300 + 60, rfl, by nlinarith⟩
  · exact ⟨trivial, dr.d1 * 300 + 60, rfl, by nlinarith⟩

/-- C5: the engine tick is idempotent within one instant — for every machine
state, running the cycle update twice at an identical `now` advances the
phase at most once: the second call leaves the phase, its start time and its
planned duration (the whole state) unchanged, whatever fresh draws it gets. -/
theorem updateCycle_idempotent_at_same_instant (s : GenState) (now : ℤ)
    (dr dr' : AdvanceDraws) (h10 : 0 ≤ dr.d1) (h20 : 0 ≤ dr.d2) :
    updateCycle (updateCycle s now dr) now dr' = updateCycle s now dr := by
  by_cases h : elapsedReached (elapsedSecondsAt s.currentCycle now) s.currentCycle.duration
  · have h1 : updateCycle s now dr = advanceCyclePhase s now dr := by
      simp [updateCycle, h]
    obtain ⟨hst, q, hdur, hq⟩ := advanceCyclePhase_startTime_posDuration s now dr h10 h20
    have hcond : elapsedReached
        (elapsedSecondsAt (advanceCyclePhase s now dr).currentCycle now)
        (advanceCyclePhase s now dr).currentCycle.duration = false := by
      simp only [hdur, elapsedReached, elapsedSecondsAt, hst]
      simp only [sub_self, Int.cast_zero, zero_div, ge_iff_le, decide_eq_false_iff_not, not_le]
      exact hq
    rw [h1]
    simp [updateCycle, hcond]
  · have h1 : updateCycle s now dr = s := by simp [updateCycle, h]
    rw [h1]
    simp [updateCycle, h]

/-- Witness for C5: a concrete idle state whose duration has elapsed at
`now = 200000` ms; the first update advances, the second (with different
draws) is a no-op. -/
theorem updateCycle_idempotent_witness :
    updateCycle (updateCycle (demoState .idle (.fin 100)) 200000 ⟨1/2, 1/2⟩)
        200000 ⟨1/3, 1/4⟩ =
      updateCycle (demoState .idle (.fin 100)) 200000 ⟨1/2, 1/2⟩ :=
  updateCycle_idempotent_at_same_instant (demoState .idle (.fin 100)) 200000
    ⟨1/2, 1/2⟩ ⟨1/3, 1/4⟩ (by norm_num) (by norm_num)

/-- C6 counterexample: `generateCurrentToolPayload` does not clamp the
progress fraction.  With phase machining, planned duration 1200 s, start time
0 and `now` exactly at the planned end (1 200 000 ms), the code computes tool
6, while the clamped formula of the spec gives 5 — so the code value neither
equals the clamped formula nor lies in {1,...,5} for every elapsed ≥ 0. -/
theorem currentToolNumber_unclamped_counterexample :
    currentToolNumber ⟨.machining, .fin 1200, 0⟩ 1200000 = 6 ∧
    specClampedToolNumber ⟨.machining, .fin 1200, 0⟩ 1200000 = 5 ∧
    ¬ (currentToolNumber ⟨.machining, .fin 1200, 0⟩ 1200000 ≤ 5) := by
  have hprog : cycleProgressAt ⟨.machining, .fin 1200, 0⟩ 1200000 = 1 := by
    show ((1200000 - 0 : ℤ) : ℚ) / (1200 * 1000) = 1
    norm_num
  have hcur : currentToolNumber ⟨.machining, .fin 1200, 0⟩ 1200000 = 6 := by
    show (if Phase.machining = Phase.machining
      then ⌊cycleProgressAt ⟨.machining, .fin 1200, 0⟩ 1200000 * 5⌋ + 1 else 1) = 6
    rw [if_pos rfl, hprog]
    norm_num
  have hspec : specClampedToolNumber ⟨.machining, .fin 1200, 0⟩ 1200000 = 5 := by
    show ⌊max 0 (min (((1200000 - 0 : ℤ) : ℚ) / 1000 / 1200) (999 / 1000)) * 5⌋ + 1 = 5
    rw [show (((1200000 - 0 : ℤ) : ℚ) / 1000 / 1200) = 1 by norm_num,
        min_eq_right (by norm_num : (999 / 1000 : ℚ) ≤ 1),
        max_eq_right (by norm_num : (0 : ℚ) ≤ 999 / 1000),
        show (⌊(999 / 1000 : ℚ) * 5⌋ : ℤ) = 4 by rw [Int.floor_eq_iff]; norm_num]
    norm_num
  exact ⟨hcur, hspec, by rw [hcur]; omega⟩

/-- C6 (amended): while the machining phase is still running
(`0 ≤ elapsed < planned duration`, the only states in which the reading is
produced, since the tick advances the phase first), the current-tool value
equals the clamped formula of the spec and lies in {1,...,5}. -/
theorem currentToolNumber_machining_clamped_range
    (c : MachineOperationCycle) (d : ℚ) (now : ℤ)
    (hphase : c.phase = .machining) (hdur : c.duration = .fin d) (hd : 0 < d)
    (h0 : c.startTime ≤ now)
    (h1 : ((now - c.startTime : ℤ) : ℚ) < d * 1000) :
    currentToolNumber c now = specClampedToolNumber c now ∧
    1 ≤ currentToolNumber c now ∧ currentToolNumber c now ≤ 5 := by
  have hsimpL : currentToolNumber c now =
      ⌊((now - c.startTime : ℤ) : ℚ) / (d * 1000) * 5⌋ + 1 := by
    simp [currentToolNumber, hphase, cycleProgressAt, hdur]
  have hfrac : (((now - c.startTime : ℤ) : ℚ) / 1000) / d =
      ((now - c.startTime : ℤ) : ℚ) / (d * 1000) := by
    rw [div_div, mul_comm]
  have hsimpR : specClampedToolNumber c now =
      ⌊max 0 (min (((now - c.startTime : ℤ) : ℚ) / (d * 1000)) (999 / 1000)) * 5⌋ + 1 := by
    simp only [specClampedToolNumber, hdur, hfrac]
  have ha0 : (0 : ℚ) ≤ ((now - c.startTime : ℤ) : ℚ) := by
    exact_mod_cast sub_nonneg.2 h0
  have hden : (0 : ℚ) < d * 1000 := by positivity
  have hp0 : (0 : ℚ) ≤ ((now - c.startTime : ℤ) : ℚ) / (d * 1000) :=
    div_nonneg ha0 hden.le
  have hp1 : ((now - c.startTime : ℤ) : ℚ) / (d * 1000) < 1 :=
    (div_lt_one hden).2 h1
  have hmul0 : (0 : ℚ) ≤ ((now - c.startTime : ℤ) : ℚ) / (d * 1000) * 5 := by
    nlinarith [hp0]
  have hmul5 : ((now - c.startTime : ℤ) : ℚ) / (d * 1000) * 5 < 5 := by
    nlinarith [hp1]
  rcases le_or_lt (((now - c.startTime : ℤ) : ℚ) / (d * 1000)) (999 / 1000) with hle | hgt
  · have hclamp : max 0 (min (((now - c.startTime : ℤ) : ℚ) / (d * 1000)) (999 / 1000)) =
        ((now - c.startTime : ℤ) : ℚ) / (d * 1000) := by
      rw [min_eq_left hle, max_eq_right hp0]
    have hlow : (0 : ℤ) ≤ ⌊((now - c.startTime : ℤ) : ℚ) / (d * 1000) * 5⌋ :=
      Int.floor_nonneg.2 hmul0
    have hhigh : ⌊((now - c.startTime : ℤ) : ℚ) / (d * 1000) * 5⌋ < 5 :=
      Int.floor_lt.2 (by exact_mod_cast hmul5)
    refine ⟨by rw [hsimpL, hsimpR, hclamp], ?_, ?_⟩
    · rw [hsimpL]; omega
    · rw [hsimpL]; omega
  · have hclamp : max 0 (min (((now - c.startTime : ℤ) : ℚ) / (d * 1000)) (999 / 1000)) =
        (999 / 1000 : ℚ) := by
      rw [min_eq_right hgt.le, max_eq_right (by norm_num)]
    have h999 : (⌊(999 / 1000 : ℚ) * 5⌋ : ℤ) = 4 := by
      rw [Int.floor_eq_iff]; norm_num
    have h4a : (4 : ℚ) ≤ ((now - c.startTime : ℤ) : ℚ) / (d * 1000) * 5 := by
      nlinarith [hgt]
    have hL : ⌊((now - c.startTime : ℤ) : ℚ) / (d * 1000) * 5⌋ = 4 := by
      rw [Int.floor_eq_iff]
      refine ⟨by exact_mod_cast h4a, by exact_mod_cast hmul5⟩
    refine ⟨?_, ?_, ?_⟩
    · rw [hsimpL, hsimpR, hclamp, hL, h999]
    · rw [hsimpL, hL]; omega
    · rw [hsimpL, hL]; omega

/-- Witness for C6 (amended): half-way through a 1200 s machining phase the
selected tool is the clamped-formula value and lies in {1,...,5}. -/
theorem currentToolNumber_machining_clamped_range_witness :
    currentToolNumber ⟨.machining, .fin 1200, 0⟩ 600000 =
      specClampedToolNumber ⟨.machining, .fin 1200, 0⟩ 600000 ∧
    1 ≤ currentToolNumber ⟨.machining, .fin 1200, 0⟩ 600000 ∧
    currentToolNumber ⟨.machining, .fin 1200, 0⟩ 600000 ≤ 5 :=
  currentToolNumber_machining_clamped_range ⟨.machining, .fin 1200, 0⟩ 1200 600000
    rfl rfl (by norm_num) (by norm_num) (by norm_num)

/-- Helper: `advanceCyclePhase` rewrites only the cycle and the parts
counter; wear map, baselines, machine profile and shift start are kept. -/
theorem advanceCyclePhase_preserves_fields (s : GenState) (now : ℤ) (dr : AdvanceDraws) :
    (advanceCyclePhase s now dr).toolWearFactors = s.toolWearFactors ∧
    (advanceCyclePhase s now dr).vibrationBaseline = s.vibrationBaseline ∧
    (advanceCyclePhase s now dr).temperatureBaseline = s.temperatureBaseline ∧
    (advanceCyclePhase s now dr).machine = s.machine ∧
    (advanceCyclePhase s now dr).cycleStartTime = s.cycleStartTime := by
  cases hp : s.currentCycle.phase <;>
    simp only [advanceCyclePhase, hp] <;>
    (try split_ifs) <;>
    simp

/-- Helper: the same preservation for `updateCycle`. -/
theorem updateCycle_preserves_fields (s : GenState) (now : ℤ) (dr : AdvanceDraws) :
    (updateCycle s now dr).toolWearFactors = s.toolWearFactors ∧
    (updateCycle s now dr).vibrationBaseline = s.vibrationBaseline ∧
    (updateCycle s now dr).temperatureBaseline = s.temperatureBaseline ∧
    (updateCycle s now dr).machine = s.machine ∧
    (updateCycle s now dr).cycleStartTime = s.cycleStartTime := by
  by_cases h : elapsedReached (elapsedSecondsAt s.currentCycle now) s.currentCycle.duration
  · have h1 : updateCycle s now dr = advanceCyclePhase s now dr := by
      simp [updateCycle, h]
    rw [h1]
    exact advanceCyclePhase_preserves_fields s now dr
  · have h1 : updateCycle s now dr = s := by simp [updateCycle, h]
    rw [h1]
    exact ⟨rfl, rfl, rfl, rfl, rfl⟩

/-- Helper: a full tick (`generateSensorReadings`) also only touches the
cycle, the parts counter and `lastUpdate`. -/
theorem generateSensorReadings_preserves_fields (s : GenState) (now : ℤ)
    (fmt : String) (osc : OscSamples) (dr : TickDraws) :
    ((generateSensorReadings s now fmt osc dr).2).toolWearFactors = s.toolWearFactors ∧
    ((generateSensorReadings s now fmt osc dr).2).vibrationBaseline = s.vibrationBaseline ∧
    ((generateSensorReadings s now fmt osc dr).2).temperatureBaseline = s.temperatureBaseline ∧
    ((generateSensorReadings s now fmt osc dr).2).machine = s.machine ∧
    ((generateSensorReadings s now fmt osc dr).2).cycleStartTime = s.cycleStartTime := by
  have hs2 : (generateSensorReadings s now fmt osc dr).2 =
      { updateCycle s now dr.advance with lastUpdate := now } := rfl
  rw [hs2]
  simpa using updateCycle_preserves_fields s now dr.advance

/-- C7 (amended): the recorded per-tool wear is left unchanged by every tick
of `generateSensorReadings` — hence it is (weakly) non-decreasing across
successive machining ticks, but it is constant: the wear of the currently
selected tool does not grow with elapsed machining time (the source never
updates `toolWearFactors` after the constructor). -/
theorem toolWearFactors_constant_across_ticks (s : GenState) (now : ℤ)
    (fmt : String) (osc : OscSamples) (dr : TickDraws) (tool : ℤ) :
    ((generateSensorReadings s now fmt osc dr).2).toolWearFactors tool =
      s.toolWearFactors tool ∧
    s.toolWearFactors tool ≤
      ((generateSensorReadings s now fmt osc dr).2).toolWearFactors tool := by
  have h := (generateSensorReadings_preserves_fields s now fmt osc dr).1
  rw [h]
  exact ⟨rfl, le_refl _⟩

/-- Helper: evaluation rule for `jsRound` (`Math.round`). -/
theorem jsRound_eq {q : ℚ} {z : ℤ} (h1 : (z : ℚ) ≤ q + 1 / 2)
    (h2 : q + 1 / 2 < (z : ℚ) + 1) : jsRound q = z := by
  rw [jsRound, Int.floor_eq_iff]
  exact ⟨h1, h2⟩

/-- C7 counterexample: two successive ticks of a machine that stays in the
machining phase (planned duration 1200 s, ticks at 300 s and 600 s).  The
machining elapsed time grows and tool 3 is the selected tool at the second
tick, yet its recorded wear is exactly the initial wear — it did not
increase, refuting the claimed monotone growth with elapsed machining
time. -/
theorem toolWearFactors_no_strict_increase_counterexample :
    tickedOnceState.currentCycle.phase = .machining ∧
    tickedTwiceState.currentCycle.phase = .machining ∧
    currentToolNumber tickedTwiceState.currentCycle 600000 = 3 ∧
    tickedTwiceState.toolWearFactors 3 = tickedOnceState.toolWearFactors 3 ∧
    ¬ (tickedOnceState.toolWearFactors 3 < tickedTwiceState.toolWearFactors 3) := by
  have h1 : tickedOnceState =
      { demoState .machining (.fin 1200) with lastUpdate := 300000 } := by
    show { updateCycle (demoState .machining (.fin 1200)) 300000 draws0.advance
           with lastUpdate := 300000 } = _
    norm_num [updateCycle, elapsedReached, elapsedSecondsAt, demoState]
  have h2 : tickedTwiceState =
      { demoState .machining (.fin 1200) with lastUpdate := 600000 } := by
    show { updateCycle tickedOnceState 600000 draws0.advance
           with lastUpdate := 600000 } = _
    rw [h1]
    norm_num [updateCycle, elapsedReached, elapsedSecondsAt, demoState]
  rw [h1, h2]
  refine ⟨rfl, rfl, ?_, rfl, by norm_num⟩
  show (if Phase.machining = Phase.machining
    then ⌊cycleProgressAt (demoState .machining (.fin 1200)).currentCycle 600000 * 5⌋ + 1
    else 1) = 3
  rw [if_pos rfl]
  show ⌊((600000 - 0 : ℤ) : ℚ) / (1200 * 1000) * 5⌋ + 1 = 3
  rw [show ((600000 - 0 : ℤ) : ℚ) / (1200 * 1000) * 5 = 5 / 2 by norm_num,
      show (⌊(5 / 2 : ℚ)⌋ : ℤ) = 2 by rw [Int.floor_eq_iff]; norm_num]
  norm_num

/-- C8 counterexample: sensor synthesis is not pure given
(profile, state, now) — the generators draw fresh per-tick randomness.  Two
invocations from the identical profile, identical state (including both
per-machine baselines) and identical `now` (hence identical oscillation
samples) but different fresh draws — here the temperature draw 0 versus
1/2 — produce different reading lists. -/
theorem generateSensorReadings_not_pure_counterexample :
    (generateSensorReadings (demoState .machining (.fin 1200)) 0 "uns" osc0 draws0).1 ≠
      (generateSensorReadings (demoState .machining (.fin 1200)) 0 "uns" osc0 drawsTemp).1 := by
  have hstate : updateCycle (demoState .machining (.fin 1200)) 0 ⟨0, 0⟩ =
      demoState .machining (.fin 1200) := by
    norm_num [updateCycle, elapsedReached, elapsedSecondsAt, demoState]
  intro h
  have h7 := congrArg (fun l => ((l.getD 7 fallbackReading).payload).value) h
  simp only [generateSensorReadings, draws0, drawsTemp] at h7
  rw [hstate] at h7
  simp only [demoState, demoMachine, axisLabels, List.take, List.map,
    List.cons_append, List.nil_append, if_pos, if_true,
    List.getD_cons_succ, List.getD_cons_zero, generateTemperaturePayload] at h7
  rw [show jsRound ((50 + ((0 : ℚ) * 20 + 10)) * 10) = 600 from
        jsRound_eq (by norm_num) (by norm_num),
      show jsRound ((50 + ((1 / 2 : ℚ) * 20 + 10)) * 10) = 700 from
        jsRound_eq (by norm_num) (by norm_num)] at h7
  simp only [JSVal.num.injEq] at h7
  norm_num at h7

/-- C8 (amended): sensor synthesis is deterministic given
(profile, state, now, the per-tick random draws): two invocations with all
of these identical produce identical reading sets and end states, and the
tick mutates nothing beyond the engine-owned cycle/parts/lastUpdate
counters — the machine profile, the two per-machine baselines, the tool
wear map and the shift start are unchanged. -/
theorem generateSensorReadings_pure_given_draws (s : GenState) (now : ℤ)
    (fmt : String) (osc : OscSamples) (dr dr' : TickDraws) (h : dr = dr') :
    generateSensorReadings s now fmt osc dr = generateSensorReadings s now fmt osc dr' ∧
    ((generateSensorReadings s now fmt osc dr).2).machine = s.machine ∧
    ((generateSensorReadings s now fmt osc dr).2).vibrationBaseline = s.vibrationBaseline ∧
    ((generateSensorReadings s now fmt osc dr).2).temperatureBaseline = s.temperatureBaseline ∧
    ((generateSensorReadings s now fmt osc dr).2).toolWearFactors = s.toolWearFactors ∧
    ((generateSensorReadings s now fmt osc dr).2).cycleStartTime = s.cycleStartTime := by
  subst h
  obtain ⟨h1, h2, h3, h4, h5⟩ := generateSensorReadings_preserves_fields s now fmt osc dr
  exact ⟨rfl, h4, h2, h3, h1, h5⟩

/-- Witness for C8 (amended) at a concrete machine, state, instant and draw
record. -/
theorem generateSensorReadings_pure_given_draws_witness :
    generateSensorReadings (demoState .idle (.fin 100)) 0 "uns" osc0 draws0 =
      generateSensorReadings (demoState .idle (.fin 100)) 0 "uns" osc0 draws0 ∧
    ((generateSensorReadings (demoState .idle (.fin 100)) 0 "uns" osc0 draws0).2).machine =
      (demoState .idle (.fin 100)).machine ∧
    ((generateSensorReadings (demoState .idle (.fin 100)) 0 "uns" osc0 draws0).2).vibrationBaseline =
      (demoState .idle (.fin 100)).vibrationBaseline ∧
    ((generateSensorReadings (demoState .idle (.fin 100)) 0 "uns" osc0 draws0).2).temperatureBaseline =
      (demoState .idle (.fin 100)).temperatureBaseline ∧
    ((generateSensorReadings (demoState .idle (.fin 100)) 0 "uns" osc0 draws0).2).toolWearFactors =
      (demoState .idle (.fin 100)).toolWearFactors ∧
    ((generateSensorReadings (demoState .idle (.fin 100)) 0 "uns" osc0 draws0).2).cycleStartTime =
      (demoState .idle (.fin 100)).cycleStartTime :=
  generateSensorReadings_pure_given_draws (demoState .idle (.fin 100)) 0 "uns"
    osc0 draws0 draws0 rfl

/-- C2: a produced wire message is rejected by validation (and, being
invalid, never enters the to-publish collection) when its payload value is
missing, its timestamp is not a finite number (NaN, modelled `none`), or an
identity field (location path, tag name, topic) is empty; and every message
that passes validation carries a non-empty destination topic and a finite
numeric `timestamp_ms`.  The third conjunct states the drop: everything the
publish pass collects is validated. -/
theorem validateUMHMessage_rejects_and_roundtrip (m : UMHMessage)
    (rs : List SensorReadingWithMachine) :
    ((∃ p, m.payload = some p ∧ (p.value = none ∨ p.timestamp_ms = none)) ∨
      (∃ md, m.metadata = some md ∧ (md.location_path = "" ∨ md.tag_name = "")) ∨
      m.topic = "" →
      (validateUMHMessage m).valid = false) ∧
    ((validateUMHMessage m).valid = true →
      m.topic ≠ "" ∧ ∃ p, m.payload = some p ∧ ∃ n, p.timestamp_ms = some n) ∧
    (∀ msg ∈ collectUMHMessages rs, (validateUMHMessage msg).valid = true) := by
  refine ⟨?_, ?_, ?_⟩
  · rintro (⟨p, hp, hv | ht⟩ | ⟨md, hmd, hl | htag⟩ | htop)
    · simp [validateUMHMessage, hp, hv]
    · simp [validateUMHMessage, hp, ht, truthyTimestamp]
    · simp [validateUMHMessage, hmd, hl]
    · simp [validateUMHMessage, hmd, htag]
    · simp [validateUMHMessage, htop]
  · intro hv
    rcases hp : m.payload with _ | p
    · rw [show (validateUMHMessage m).valid =
          (validateUMHMessage m).errors.isEmpty from rfl] at hv
      simp [validateUMHMessage, hp] at hv
    · rcases hts : p.timestamp_ms with _ | n
      · simp [validateUMHMessage, hp, hts, truthyTimestamp] at hv
      · by_cases htop : m.topic = ""
        · simp [validateUMHMessage, htop] at hv
        · exact ⟨htop, p, rfl, n, hts⟩
  · intro msg
    induction rs with
    | nil => intro hmem; simp [collectUMHMessages] at hmem
    | cons r rest ih =>
      intro hmem
      rw [show collectUMHMessages (r :: rest) =
          (if (validateUMHMessage (convertToUMHMessage r)).valid
           then convertToUMHMessage r :: collectUMHMessages rest
           else collectUMHMessages rest) from rfl] at hmem
      by_cases hc : (validateUMHMessage (convertToUMHMessage r)).valid
      · rw [if_pos hc] at hmem
        rcases List.mem_cons.1 hmem with rfl | hmem2
        · exact hc
        · exact ih hmem2
      · rw [if_neg hc] at hmem
        exact ih hmem

/-- Witness for C2: a concrete message with a missing value is rejected; a
concrete well-formed message passes and carries a non-empty topic and a
finite timestamp; the empty collection pass yields only validated
messages. -/
theorem validateUMHMessage_rejects_and_roundtrip_witness :
    (validateUMHMessage missingValueUMHMessage).valid = false ∧
    (validUMHMessage.topic ≠ "" ∧ ∃ p, validUMHMessage.payload = some p ∧
      ∃ n, p.timestamp_ms = some n) ∧
    (∀ msg ∈ collectUMHMessages [], (validateUMHMessage msg).valid = true) :=
  ⟨(validateUMHMessage_rejects_and_roundtrip missingValueUMHMessage []).1
      (Or.inl ⟨_, rfl, Or.inl rfl⟩),
   (validateUMHMessage_rejects_and_roundtrip validUMHMessage []).2.1 (by decide),
   (validateUMHMessage_rejects_and_roundtrip validUMHMessage []).2.2⟩

/-- C10: `validateUMHMessage` rejects every message whose payload
`timestamp_ms` equals 0, reporting "Payload missing or invalid
timestamp_ms", even though 0 is a finite numeric millisecond timestamp —
the truthiness check drops epoch-zero readings. -/
theorem validateUMHMessage_rejects_epoch_zero (m : UMHMessage) (p : UMHPayload)
    (hp : m.payload = some p) (hts : p.timestamp_ms = some 0) :
    (validateUMHMessage m).valid = false ∧
    "Payload missing or invalid timestamp_ms" ∈ (validateUMHMessage m).errors := by
  constructor
  · simp [validateUMHMessage, hp, hts, truthyTimestamp]
  · simp [validateUMHMessage, hp, hts, truthyTimestamp]

/-- Witness for C10 at a concrete epoch-zero message. -/
theorem validateUMHMessage_rejects_epoch_zero_witness :
    (validateUMHMessage zeroTimestampUMHMessage).valid = false ∧
    "Payload missing or invalid timestamp_ms" ∈
      (validateUMHMessage zeroTimestampUMHMessage).errors :=
  validateUMHMessage_rejects_epoch_zero zeroTimestampUMHMessage
    ⟨some (.num 1), some 0⟩ rfl rfl

/-- Helper: if the retry loop reports success at attempt `a`, then `a` lies
within the allowed window, the HTTP POST of attempt `a` succeeded, and every
earlier performed attempt failed (so exactly one delivery happened). -/
theorem publishFrom_success_spec (out : ℕ → Option ε) :
    ∀ (remaining attempt : ℕ) (delays : List ℕ) (last : Option ε) (a : ℕ)
      (ds : List ℕ),
      publishFrom out attempt remaining delays last = .success a ds →
      attempt ≤ a ∧ a + 1 ≤ attempt + remaining ∧ out a = none ∧
      ∀ b, attempt ≤ b → b < a → out b ≠ none := by
  intro remaining
  induction remaining with
  | zero =>
    intro attempt delays last a ds h
    simp [publishFrom] at h
  | succ k ih =>
    intro attempt delays last a ds h
    simp only [publishFrom] at h
    cases hout : out attempt with
    | none =>
      simp only [hout, PublishOutcome.success.injEq] at h
      obtain ⟨rfl, rfl⟩ := h
      exact ⟨le_refl _, by omega, hout, fun b hb1 hb2 => absurd hb2 (by omega)⟩
    | some e =>
      simp only [hout] at h
      by_cases hk : k = 0
      · rw [if_pos hk] at h
        simp at h
      · rw [if_neg hk] at h
        obtain ⟨h1, h2, h3, h4⟩ := ih (attempt + 1) _ _ a ds h
        refine ⟨by omega, by omega, h3, ?_⟩
        intro b hb1 hb2
        rcases eq_or_lt_of_le hb1 with rfl | hlt
        · rw [hout]; simp
        · exact h4 b (by omega) hb2

/-- C3: `publish(message)` attempts delivery up to the configured retry
ceiling (default 3), waits `min(1000 * 2^(attempt-1), 5000)` ms between
consecutive attempts, a fail/fail/succeed run yields exactly one successful
delivery (at attempt 3, with every earlier attempt failed) and backoff
delays 1000 ms and 2000 ms, and only when all attempts fail does the call
fail, carrying the last underlying cause. -/
theorem publish_retry_policy (out : ℕ → Option ε) (e1 e2 e3 : ε) :
    resolveRetries none = 3 ∧
    (∀ a, backoffDelay a = min (1000 * 2 ^ (a - 1)) 5000) ∧
    (out 1 = some e1 → out 2 = some e2 → out 3 = none →
      publish 3 out = .success 3 [1000, 2000]) ∧
    (out 1 = some e1 → out 2 = some e2 → out 3 = some e3 →
      publish 3 out = .failure [1000, 2000] (some e3)) ∧
    (∀ r a ds, publish r out = .success a ds →
      1 ≤ a ∧ a ≤ r ∧ out a = none ∧ ∀ b, 1 ≤ b → b < a → out b ≠ none) := by
  refine ⟨rfl, fun a => rfl, ?_, ?_, ?_⟩
  · intro h1 h2 h3
    show publishFrom out 1 3 [] none = .success 3 [1000, 2000]
    simp only [publishFrom, h1, h2, h3]
    norm_num [backoffDelay]
  · intro h1 h2 h3
    show publishFrom out 1 3 [] none = .failure [1000, 2000] (some e3)
    simp only [publishFrom, h1, h2, h3]
    norm_num [backoffDelay]
  · intro r a ds h
    obtain ⟨ha1, ha2, ha3, ha4⟩ := publishFrom_success_spec out r 1 [] none a ds h
    exact ⟨ha1, by omega, ha3, ha4⟩

/-- Witness for C3: the concrete fail/fail/succeed outcome delivers on
attempt 3 after backoffs of 1000 ms and 2000 ms. -/
theorem publish_retry_policy_witness :
    publish 3 failTwiceOutcome = .success 3 [1000, 2000] :=
  (publish_retry_policy failTwiceOutcome "connect ECONNREFUSED"
    "connect ECONNREFUSED" "connect ECONNREFUSED").2.2.1 rfl rfl rfl

/-- Helper: an all-success send loop delivers every message. -/
theorem runIndividualSends_all_success :
    ∀ (outcomes : List (Option String)) (m : UMHMetrics),
      (∀ o ∈ outcomes, o = none) →
      runIndividualSends outcomes m =
        ({ m with totalMessagesPublished :=
            m.totalMessagesPublished + outcomes.length }, none) := by
  intro outcomes
  induction outcomes with
  | nil => intro m h; simp [runIndividualSends]
  | cons o rest ih =>
    intro m h
    have ho : o = none := h o (List.mem_cons_self o rest)
    subst ho
    rw [show runIndividualSends (none :: rest) m = runIndividualSends rest
        { m with totalMessagesPublished := m.totalMessagesPublished + 1 } from rfl]
    rw [ih _ (fun x hx => h x (List.mem_cons_of_mem _ hx))]
    simp only [List.length_cons, Prod.mk.injEq, UMHMetrics.mk.injEq, and_true]
    omega

/-- Helper: the send loop stops at the first throwing publish, having counted
exactly the deliveries before it; the messages after it are untouched. -/
theorem runIndividualSends_first_failure :
    ∀ (pre : List (Option String)) (suf : List (Option String)) (e : String)
      (m : UMHMetrics),
      (∀ o ∈ pre, o = none) →
      runIndividualSends (pre ++ some e :: suf) m =
        ({ m with totalMessagesPublished :=
            m.totalMessagesPublished + pre.length }, some e) := by
  intro pre
  induction pre with
  | nil => intro suf e m h; simp [runIndividualSends]
  | cons o rest ih =>
    intro suf e m h
    have ho : o = none := h o (List.mem_cons_self o rest)
    subst ho
    rw [show runIndividualSends ((none :: rest) ++ some e :: suf) m =
        runIndividualSends (rest ++ some e :: suf)
          { m with totalMessagesPublished := m.totalMessagesPublished + 1 } from rfl]
    rw [ih suf e _ (fun x hx => h x (List.mem_cons_of_mem _ hx))]
    simp only [List.length_cons, Prod.mk.injEq, UMHMetrics.mk.injEq, and_true]
    omega

/-- Helper: `addError` always retains the error just pushed. -/
theorem addError_mem_last (m : UMHMetrics) (e : String) :
    e ∈ (addError m e).errors := by
  show e ∈ (if 10 < (m.errors ++ [e]).length
    then (m.errors ++ [e]).drop ((m.errors ++ [e]).length - 10)
    else (m.errors ++ [e]))
  by_cases h : 10 < (m.errors ++ [e]).length
  · rw [if_pos h, List.drop_append_of_le_length
      (by simp only [List.length_append, List.length_singleton] at h ⊢; omega)]
    simp
  · rw [if_neg h]
    simp

/-- Helper: `addError` keeps the error log bounded by 10. -/
theorem addError_length_bound (m : UMHMetrics) (e : String) :
    (addError m e).errors.length ≤ 10 := by
  show (if 10 < (m.errors ++ [e]).length
    then (m.errors ++ [e]).drop ((m.errors ++ [e]).length - 10)
    else (m.errors ++ [e])).length ≤ 10
  by_cases h10 : 10 < (m.errors ++ [e]).length
  · rw [if_pos h10, List.length_drop]
    omega
  · rw [if_neg h10]
    omega

/-- C4 counterexample: a per-message delivery failure is NOT local to that
message within the tick — the awaited publish loop sits inside the tick-wide
try/catch, so the throw aborts the loop and the remaining messages of the
same tick are never delivered.  With outcomes [failure, deliverable], zero
messages get published, although with [deliverable, deliverable] the same
tick publishes two. -/
theorem publish_failure_not_local_counterexample :
    (publishSensorDataTick [some "boom", none] 9 3000 0
        freshUMHMetrics).totalMessagesPublished = 0 ∧
    ¬ (1 ≤ (publishSensorDataTick [some "boom", none] 9 3000 0
        freshUMHMetrics).totalMessagesPublished) ∧
    (publishSensorDataTick [none, none] 9 3000 0
        freshUMHMetrics).totalMessagesPublished = 2 := by
  refine ⟨?_, ?_, ?_⟩ <;> decide

/-- C4 (amended): when the delivery of one message fails after its retries, the
failure is recorded in the bounded error log (at most the 10 most recent
errors) and the metric update of that tick is skipped together with the
remaining messages of that tick (see the counterexample); subsequent ticks
run unaffected from any metrics state, and only startup connection failure
aborts the simulation start. -/
theorem publish_failure_recorded_next_tick_unaffected
    (pre suf outcomes : List (Option String)) (e : String) (m : UMHMetrics)
    (active : ℕ) (now startTime : ℤ)
    (hpre : ∀ o ∈ pre, o = none) (hout : ∀ o ∈ outcomes, o = none) :
    publishSensorDataTick (pre ++ some e :: suf) active now startTime m =
      addError { m with totalMessagesPublished :=
          m.totalMessagesPublished + pre.length }
        ("UMH publishing error: " ++ e) ∧
    ("UMH publishing error: " ++ e) ∈
      (publishSensorDataTick (pre ++ some e :: suf) active now startTime m).errors ∧
    (publishSensorDataTick (pre ++ some e :: suf) active now startTime m).errors.length ≤ 10 ∧
    publishSensorDataTick outcomes active now startTime m =
      updateMetrics now startTime
        { m with
          totalMessagesPublished := m.totalMessagesPublished + outcomes.length,
          activeMachines := active } ∧
    (∀ err, startSimulation (some err) = Except.error err) ∧
    startSimulation none = Except.ok () := by
  have hfail := runIndividualSends_first_failure pre suf e m hpre
  have heq : publishSensorDataTick (pre ++ some e :: suf) active now startTime m =
      addError { m with totalMessagesPublished :=
          m.totalMessagesPublished + pre.length }
        ("UMH publishing error: " ++ e) := by
    rw [publishSensorDataTick, hfail]
  refine ⟨heq, ?_, ?_, ?_, fun _ => rfl, rfl⟩
  · rw [heq]
    exact addError_mem_last _ _
  · rw [heq]
    exact addError_length_bound _ _
  · rw [publishSensorDataTick, runIndividualSends_all_success outcomes m hout]

/-- Witness for C4 (amended) at concrete outcome lists and metrics. -/
theorem publish_failure_recorded_next_tick_unaffected_witness :
    publishSensorDataTick ([] ++ some "boom" :: [none]) 9 3000 0 freshUMHMetrics =
      addError { freshUMHMetrics with totalMessagesPublished :=
          freshUMHMetrics.totalMessagesPublished + ([] : List (Option String)).length }
        ("UMH publishing error: " ++ "boom") ∧
    ("UMH publishing error: " ++ "boom") ∈
      (publishSensorDataTick ([] ++ some "boom" :: [none]) 9 3000 0 freshUMHMetrics).errors ∧
    (publishSensorDataTick ([] ++ some "boom" :: [none]) 9 3000 0 freshUMHMetrics).errors.length ≤ 10 ∧
    publishSensorDataTick [none, none] 9 3000 0 freshUMHMetrics =
      updateMetrics 3000 0
        { freshUMHMetrics with
          totalMessagesPublished :=
            freshUMHMetrics.totalMessagesPublished + ([none, none] : List (Option String)).length,
          activeMachines := 9 } ∧
    (∀ err, startSimulation (some err) = Except.error err) ∧
    startSimulation none = Except.ok () :=
  publish_failure_recorded_next_tick_unaffected [] [none] [none, none] "boom"
    freshUMHMetrics 9 3000 0 (by simp) (by simp)

/-- C9: machines whose profile classification is unreachable
(`operational_status` "offline") are excluded from the generation pass, and
in the built-in 10-machine roster exactly one machine is offline, so the
`activeMachines` metric equals 9 after any tick of the simulation manager
(the metric is assigned on every tick regardless of publish outcomes). -/
theorem offline_excluded_activeMachines_nine :
    (∀ m ∈ operationalMachines, m.operational_status ≠ "offline") ∧
    (CNC_MACHINES.filter (fun m => m.operational_status = "offline")).length = 1 ∧
    CNC_MACHINES.length = 10 ∧
    operationalMachines.length = 9 ∧
    ∀ (outcomes : List (String × Option String)) (m : SimMetrics),
      (publishSensorDataSim outcomes m).activeMachines = 9 := by
  refine ⟨?_, ?_, ?_, ?_, ?_⟩
  · decide
  · rfl
  · rfl
  · rfl
  · intro outcomes m
    rfl

/-- Witness for C9: a concrete roster member is not offline, and a concrete
tick reports 9 active machines. -/
theorem offline_excluded_activeMachines_nine_witness :
    demoMachine.operational_status ≠ "offline" ∧
    (publishSensorDataSim [] freshSimMetrics).activeMachines = 9 :=
  ⟨offline_excluded_activeMachines_nine.1 demoMachine (by decide),
   offline_excluded_activeMachines_nine.2.2.2.2 [] freshSimMetrics⟩

end FactorySim
